import Mathlib

/-!
Verification development for the Burkina Tourisme chatbot backend.

The Python sources under `src/backend/` are shallowly embedded:

* `rag_system.py`: `RAGSystem.retrieve_documents`, `generate_response`,
  `_build_context`, `_generate_with_llm`, `_generate_with_template`,
  `_generate_fallback_response`, `chat`, `load_corpus`;
* `main.py`: the `/api/chat` endpoint, `find_relevant_snippets`, the
  `/api/init` endpoint;
* `data_loader.py`: `DataLoader.get_statistics`;
* `config.py`: `RAG_CONFIG`.

Python floats are modelled as rationals (`ℚ`); the similarity logic of the
code only compares and subtracts, so rational arithmetic is faithful.
Python strings are modelled as Lean `String`s, with the Python string
operations (`lower`, `strip`, slicing, `replace`, substring test) given
structural re-implementations over `String.data` so that they evaluate by
kernel reduction.  `lower`/`strip` and the regex class `\w` are modelled on
the ASCII range (Python additionally folds non-ASCII letters; the corpus
constants the claims mention are unaffected).

The external collaborators are modelled at their interface:

* the ChromaDB collection (`collection.query`) is an in-memory index whose
  entries carry their cosine distance to the current query; per its contract
  it returns at most `n_results` hits ordered by ascending distance
  (`metadata={"hnsw:space": "cosine"}`);
* the sentence-transformers encoder is opaque: a query is represented by
  the distances it induces on the index entries;
* the LLM pipeline is an opaque function from the prompt to either a
  generated text or a raised error (`Except`).
-/

namespace BT

/-! ### Python string primitives (over `List Char`) -/

/-- ASCII model of Python `str.lower` applied to a character. -/
def pyLower (s : List Char) : List Char := s.map Char.toLower

/-- Python `str.strip()`: drop leading and trailing whitespace. -/
def pyStrip (s : List Char) : List Char :=
  ((s.dropWhile Char.isWhitespace).reverse.dropWhile Char.isWhitespace).reverse

/-- Python `needle in hay` for strings: contiguous substring test. -/
def isSubstring : List Char → List Char → Bool
  | needle, [] => needle.isEmpty
  | needle, c :: t => needle.isPrefixOf (c :: t) || isSubstring needle t

/-- Fuel-driven worker for `removeAll` (fuel bounds the scan, one unit per
consumed character, so `fuel = s.length` always suffices). -/
def removeAllFuel (pat : List Char) : Nat → List Char → List Char
  | _, [] => []
  | 0, s => s
  | fuel + 1, c :: cs =>
    if pat.isPrefixOf (c :: cs) then removeAllFuel pat fuel ((c :: cs).drop pat.length)
    else c :: removeAllFuel pat fuel cs

/-- Python `s.replace(pat, "")`: delete every (leftmost, non-overlapping)
occurrence of `pat` in `s`.  An empty pattern leaves `s` unchanged, as in
Python when the replacement is empty. -/
def removeAll (pat s : List Char) : List Char :=
  if pat.isEmpty then s else removeAllFuel pat s.length s

/-- Worker for `runsBy`: `cur` holds the characters of the run in progress,
in reverse order. -/
def runsByAux (p : Char → Bool) : List Char → List Char → List (List Char)
  | cur, [] => if cur.isEmpty then [] else [cur.reverse]
  | cur, c :: cs =>
    if p c then runsByAux p (c :: cur) cs
    else if cur.isEmpty then runsByAux p [] cs
    else cur.reverse :: runsByAux p [] cs

/-- The maximal runs of characters satisfying `p`, in order. -/
def runsBy (p : Char → Bool) (s : List Char) : List (List Char) :=
  runsByAux p [] s

/-- String wrappers. -/
def pyLowerStr (s : String) : String := ⟨pyLower s.data⟩

/-- Python `s.strip()` on a `String`. -/
def pyStripStr (s : String) : String := ⟨pyStrip s.data⟩

/-- Python `s[:n]` on a `String`. -/
def pyTakeStr (n : Nat) (s : String) : String := ⟨s.data.take n⟩

/-- Python `hay.__contains__(needle)` on `String`s. -/
def strContains (hay needle : String) : Bool := isSubstring needle.data hay.data

/-- Python `s.replace(pat, "")` on `String`s. -/
def removeAllStr (pat s : String) : String := ⟨removeAll pat.data s.data⟩

/-- Python `sep.join(parts)`. -/
def joinSep (sep : String) : List String → String
  | [] => ""
  | [s] => s
  | s :: rest => s ++ sep ++ joinSep sep rest

/-! ### Configuration (`config.py`, `RAG_CONFIG`) -/

/-- The `RAG_CONFIG` dictionary of `config.py`. -/
structure RagConfig where
  chunk_size : Nat
  chunk_overlap : Nat
  top_k : Nat
  similarity_threshold : ℚ

/-- `RAG_CONFIG = {chunk_size: 500, chunk_overlap: 50, top_k: 5,
similarity_threshold: 0.3}`. -/
def RAG_CONFIG : RagConfig :=
  { chunk_size := 500, chunk_overlap := 50, top_k := 5, similarity_threshold := mkRat 3 10 }

/-! ### Data model (`rag_system.py`) -/

/-- Document metadata: `{title, url, category}` with every key optional
(Python accesses them with `.get` and a default). -/
structure DocMeta where
  title : Option String
  url : Option String
  category : Option String
deriving DecidableEq, Repr

/-- One entry of the vector index, as seen by one query: the stored id,
text and metadata together with the cosine distance between the entry's
embedding and the query embedding (the encoder itself is opaque). -/
structure RawHit where
  id : String
  text : String
  metadata : DocMeta
  distance : ℚ
deriving DecidableEq, Repr

/-- The dictionary returned by `collection.query` for a single query
embedding: parallel lists `ids`, `documents`, `metadatas`, and the
`distances` key which the code guards with `if results["distances"]`
(absent/falsy is modelled as `none` and read as distance `0`). -/
structure QueryResult where
  ids : List String
  documents : List String
  metadatas : List DocMeta
  distances : Option (List ℚ)
deriving DecidableEq, Repr

/-- One element of the list returned by `retrieve_documents`. -/
structure RetrievedDoc where
  id : String
  text : String
  metadata : DocMeta
  similarity : ℚ
deriving DecidableEq, Repr

/-- Ascending-distance ordering on index entries (cosine space). -/
def distLE (a b : RawHit) : Prop := a.distance ≤ b.distance

instance : DecidableRel distLE := fun a b => inferInstanceAs (Decidable (a.distance ≤ b.distance))

instance : IsTotal RawHit distLE := ⟨fun a b => le_total a.distance b.distance⟩

instance : IsTrans RawHit distLE := ⟨fun _ _ _ h h' => le_trans h h'⟩

/-- The ChromaDB collection's `query(query_embeddings, n_results)` call,
modelled per its contract for the cosine space: the nearest-neighbour list
holds at most `n_results` entries ordered by ascending distance. -/
def collection_query (entries : List RawHit) (n_results : Nat) : QueryResult :=
  let hits := (entries.insertionSort distLE).take n_results
  { ids := hits.map RawHit.id
    documents := hits.map RawHit.text
    metadatas := hits.map RawHit.metadata
    distances := some (hits.map RawHit.distance) }

/-- The parallel-list traversal of `retrieve_documents` (`for i, doc_id in
enumerate(results["ids"][0])` with `results["documents"][0][i]`,
`results["metadatas"][0][i]` and `results["distances"][0][i] if
results["distances"] else 0`), written head-by-head (`getD i` becomes
`headD` of the iterated tail). -/
def rowsOf : List String → List String → List DocMeta → Option (List ℚ) → List RawHit
  | [], _, _, _ => []
  | i :: is, docs, metas, dists =>
    { id := i
      text := docs.headD ""
      metadata := metas.headD { title := none, url := none, category := none }
      distance := match dists with
                  | none => 0
                  | some ds => ds.headD 0 } :: rowsOf is docs.tail metas.tail (dists.map List.tail)

/-- The result-formatting loop of `RAGSystem.retrieve_documents`
(rag_system.py lines 176-193): `similarity = 1 - distance`, keep a result
iff `similarity >= RAG_CONFIG["similarity_threshold"]`. -/
def format_results (qr : QueryResult) : List RetrievedDoc :=
  (rowsOf qr.ids qr.documents qr.metadatas qr.distances).filterMap fun h =>
    let similarity : ℚ := 1 - h.distance
    if RAG_CONFIG.similarity_threshold ≤ similarity then
      some { id := h.id, text := h.text, metadata := h.metadata, similarity := similarity }
    else none

/-- `RAGSystem.retrieve_documents(query, top_k)`: default `top_k` from
`RAG_CONFIG`, nearest-neighbour search, then threshold filtering. -/
def retrieve_documents (entries : List RawHit) (top_k : Option Nat) : List RetrievedDoc :=
  let k := top_k.getD RAG_CONFIG.top_k
  format_results (collection_query entries k)

/-- The raw nearest-neighbour list the vector index returns for one query:
at most `k` entries, by ascending distance. -/
def rawNN (entries : List RawHit) (k : Nat) : List RawHit :=
  (entries.insertionSort distLE).take k

/-- The threshold test of the retrieval loop, as a Boolean predicate on a
raw hit. -/
def passesThreshold (h : RawHit) : Bool :=
  decide (RAG_CONFIG.similarity_threshold ≤ 1 - h.distance)

/-- The per-hit formatting of the retrieval loop. -/
def formatHit (h : RawHit) : RetrievedDoc :=
  { id := h.id, text := h.text, metadata := h.metadata, similarity := 1 - h.distance }

/-! ### Answer generation (`rag_system.py` lines 195-293) -/

/-- An LLM backend (`self.llm_pipeline`): maps the prompt to the generated
text, or to a raised runtime error. -/
def LLMBackend : Type := String → Except String String

/-- The `general_responses` dictionary of `_generate_fallback_response`,
in insertion order. -/
def general_responses : List (String × String) :=
  [("bonjour",
    "Bonjour! Je suis votre assistant touristique pour le Burkina Faso. Comment puis-je vous aider?"),
   ("salut",
    "Salut! Bienvenue. Je suis ici pour répondre à vos questions sur le tourisme au Burkina Faso."),
   ("merci",
    "De rien! N\x27hésitez pas à me poser d\x27autres questions."),
   ("au revoir",
    "Au revoir! Bon voyage au Burkina Faso!")]

/-- The fixed "no information" message of `_generate_fallback_response`. -/
def no_info_response : String :=
  "Je ne dispose pas d\x27informations spécifiques sur ce sujet. Pouvez-vous poser une question relative au tourisme au Burkina Faso?"

/-- The five strings `_generate_fallback_response` can return: the four
conversational trigger responses and the "no information" message. -/
def fallback_response_pool : List String :=
  general_responses.map Prod.snd ++ [no_info_response]

/-- `RAGSystem._generate_fallback_response`: case-insensitive substring
lookup of the trigger phrases against `query.lower().strip()`, else the
fixed "no information" message. -/
def generate_fallback_response (query : String) : String :=
  let query_lower := pyStripStr (pyLowerStr query)
  match general_responses.find? (fun kv => strContains query_lower kv.1) with
  | some kv => kv.2
  | none => no_info_response

/-- The parts built by `_build_context`: `f"Document {i}:\n{doc['text']}"`
for `i` counted from 1. -/
def contextParts : Nat → List RetrievedDoc → List String
  | _, [] => []
  | i, d :: ds => ("Document " ++ toString i ++ ":\n" ++ d.text) :: contextParts (i + 1) ds

/-- `RAGSystem._build_context`: empty for no documents, otherwise the
labelled texts joined with blank lines. -/
def build_context (docs : List RetrievedDoc) : String :=
  if docs.isEmpty then "" else joinSep "\n\n" (contextParts 1 docs)

/-- The prompt f-string of `_generate_with_llm`. -/
def buildPrompt (query context : String) : String :=
  "Contexte:\n" ++ context ++ "\n\nQuestion: " ++ query ++ "\n\nRéponse basée sur le contexte:"

/-- `RAGSystem._generate_with_template`: fallback if the context is empty,
otherwise the fixed lead-in plus the first 200 characters of the context. -/
def generate_with_template (query context : String) : String :=
  if context = "" then generate_fallback_response query
  else "Basé sur les informations disponibles: " ++ pyTakeStr 200 context ++ "..."

/-- `RAGSystem._generate_with_llm`: build the prompt, call the pipeline,
strip the echoed prompt from the output; any raised error is caught and
answered by the template tier instead. -/
def generate_with_llm (llm : LLMBackend) (query context : String) : String :=
  let prompt := buildPrompt query context
  match llm prompt with
  | Except.ok generated_text => pyStripStr (removeAllStr prompt generated_text)
  | Except.error _ => generate_with_template query context

/-- One entry of a `sources` list: either the `{title, url, similarity}`
projection built by `generate_response`, or the degraded-mode `{text}`
object built by the endpoint's keyword fallback. -/
inductive SourceEntry where
  | full (title url : String) (similarity : ℚ)
  | snippet (text : String)
deriving DecidableEq, Repr

/-- The dictionary returned by `RAGSystem.generate_response`. -/
structure GenResult where
  response : String
  sources : List SourceEntry
  context_used : Bool
deriving DecidableEq, Repr

/-- `RAGSystem.generate_response(query, context_docs)`: build the context,
use the LLM tier iff a pipeline is loaded (else the template tier), project
the sources, and set `context_used = len(context_docs) > 0`. -/
def generate_response (llm : Option LLMBackend) (query : String)
    (context_docs : List RetrievedDoc) : GenResult :=
  let context := build_context context_docs
  let response :=
    match llm with
    | some p => generate_with_llm p query context
    | none => generate_with_template query context
  { response := response
    sources := context_docs.map fun doc =>
      SourceEntry.full (doc.metadata.title.getD "Source") (doc.metadata.url.getD "")
        doc.similarity
    context_used := decide (0 < context_docs.length) }

/-- The dictionary returned by `RAGSystem.chat`. -/
structure RagResult where
  response : String
  sources : List SourceEntry
  context_used : Bool
  query : String
  num_sources : Nat
deriving DecidableEq, Repr

/-- `RAGSystem.chat(query)`: retrieve, generate, attach `query` and
`num_sources`. -/
def rag_chat (llm : Option LLMBackend) (entries : List RawHit) (query : String) : RagResult :=
  let retrieved_docs := retrieve_documents entries none
  let result := generate_response llm query retrieved_docs
  { response := result.response
    sources := result.sources
    context_used := result.context_used
    query := query
    num_sources := retrieved_docs.length }

/-! ### Corpus loading (`rag_system.py` lines 325-355, `main.py` /api/init) -/

/-- A corpus document `{id, text, metadata}`; `metadata` is optional
(read with `.get("metadata", {})`). -/
structure Document where
  id : String
  text : String
  metadata : Option DocMeta
deriving DecidableEq, Repr

/-- The outcome of opening and JSON-parsing the corpus file. -/
inductive CorpusFile where
  | missing
  | malformed
  | ok (documents : List Document)
deriving DecidableEq, Repr

/-- `RAGSystem.add_documents`: embed and append to the collection (the
embedding itself is opaque; the collection keeps the documents). -/
def add_documents (collection documents : List Document) : List Document :=
  collection ++ documents

/-- `RAGSystem.load_corpus(corpus_path)`: parse and add the documents;
`FileNotFoundError` is caught and logged as a warning, `json.JSONDecodeError`
is caught and logged as an error — in both cases the method returns with the
collection unchanged. -/
def load_corpus (file : CorpusFile) (collection : List Document) : List Document :=
  match file with
  | CorpusFile.ok documents => add_documents collection documents
  | CorpusFile.missing => collection
  | CorpusFile.malformed => collection

/-- An `HTTPException` raised by the FastAPI layer. -/
structure HttpError where
  status_code : Nat
  detail : String
deriving DecidableEq, Repr

/-! ### Data loader statistics (`data_loader.py` lines 257-280) -/

/-- The mutable state of a `DataLoader`: its document list and its set of
source URLs (represented by the distinct URLs collected so far). -/
structure DataLoader where
  documents : List Document
  sources : List String
deriving DecidableEq, Repr

/-- The dictionary returned by `DataLoader.get_statistics`. -/
structure Statistics where
  total_documents : Nat
  total_characters : Nat
  total_words : Nat
  average_doc_length : Nat
  categories : List (String × Nat)
  sources : Nat
deriving DecidableEq, Repr

/-- Python `len(text.split())`: the number of maximal non-whitespace runs. -/
def pyWordCount (s : String) : Nat :=
  (runsBy (fun c => !c.isWhitespace) s.data).length

/-- `doc.get("metadata", {}).get("category", "unknown")`. -/
def categoryOf (doc : Document) : String :=
  match doc.metadata with
  | none => "unknown"
  | some m => m.category.getD "unknown"

/-- One step of the category histogram:
`categories[category] = categories.get(category, 0) + 1`, keeping first-seen
key order as a Python dict does. -/
def bumpCategory (cats : List (String × Nat)) (c : String) : List (String × Nat) :=
  if cats.any (fun p => p.1 == c) then
    cats.map (fun p => if p.1 == c then (p.1, p.2 + 1) else p)
  else cats ++ [(c, 1)]

/-- `DataLoader.get_statistics`: document count, character and word totals,
`average_doc_length = total_chars // total_docs if total_docs > 0 else 0`,
category histogram, and distinct-source count. -/
def get_statistics (dl : DataLoader) : Statistics :=
  let total_docs := dl.documents.length
  let total_chars := (dl.documents.map fun d => d.text.length).sum
  { total_documents := total_docs
    total_characters := total_chars
    total_words := (dl.documents.map fun d => pyWordCount d.text).sum
    average_doc_length := if 0 < total_docs then total_chars / total_docs else 0
    categories := dl.documents.foldl (fun cats d => bumpCategory cats (categoryOf d)) []
    sources := dl.sources.length }

/-- The response model of the `/api/init` endpoint. -/
structure InitResp where
  status : String
  documents_loaded : Nat
  message : String
deriving DecidableEq, Repr

/-- The `/api/init` endpoint (`initialize_corpus` in `main.py`), for an
already-initialised system: clear the collection, add the sample data to the
data loader (`dl` is the loader state after that step) and save it, load the
corpus file into the cleared collection, and report
`documents_loaded = stats["total_documents"]`.  Corpus-load errors are
handled inside `load_corpus`, so they do not abort the operation. -/
def initCorpusEndpoint (file : CorpusFile) (dl : DataLoader) :
    Except HttpError (InitResp × List Document) :=
  let collection := load_corpus file ([] : List Document)
  let stats := get_statistics dl
  Except.ok
    ({ status := "success"
       documents_loaded := stats.total_documents
       message := "Corpus initialisé avec " ++ toString stats.total_documents ++ " documents" },
     collection)

/-! ### The `/api/chat` endpoint and keyword fallback (`main.py`) -/

/-- The `ChatRequest` pydantic model: `query: str`,
`top_k: Optional[int] = 5`. -/
structure ChatRequest where
  query : String
  top_k : Option Nat
deriving DecidableEq, Repr

/-- The `ChatResponse` pydantic model. -/
structure ChatResponse where
  response : String
  message : String
  sources : List SourceEntry
  context_used : Bool
  query : String
  num_sources : Nat
deriving DecidableEq, Repr

/-- ASCII model of the Python regex class `\w` (word character). -/
def isWordChar (c : Char) : Bool := c.isAlphanum || c == '_'

/-- `[w.lower() for w in re.findall(r"\w{3,}", query)]`: the maximal runs
of word characters of length at least 3, lowercased. -/
def tokenize3 (query : List Char) : List (List Char) :=
  ((runsBy isWordChar query).filter fun w => 3 ≤ w.length).map pyLower

/-- `any(w in line.lower() for w in words)`. -/
def lineMatches (words : List (List Char)) (line : String) : Bool :=
  words.any fun w => isSubstring w (pyLower line.data)

/-- The scan loop of `find_relevant_snippets`: append each matching line
and break once `len(results) >= max_results` (checked after appending). -/
def snippetLoop (words : List (List Char)) (max_results : Nat) :
    List String → List String → List String
  | [], results => results
  | line :: rest, results =>
    if lineMatches words line then
      let results := results ++ [line]
      if max_results ≤ results.length then results
      else snippetLoop words max_results rest results
    else snippetLoop words max_results rest results

/-- `find_relevant_snippets(query, sources, max_results)` from `main.py`. -/
def find_relevant_snippets (query : String) (sources : List String)
    (max_results : Nat) : List String :=
  snippetLoop (tokenize3 query.data) max_results sources []

/-- Python `request.top_k or 5`: `None` and `0` are falsy. -/
def effectiveTopK : Option Nat → Nat
  | none => 5
  | some 0 => 5
  | some k => k

/-- The no-match message of the endpoint's keyword fallback. -/
def no_sources_message : String :=
  "Désolé, je n\x27ai pas trouvé d\x27information précise dans mes sources pour votre question.\nEssayez de reformuler avec des mots-clés (ex: \x27Banfora\x27, \x27FESPACO\x27, \x27hébergement Ouagadougou\x27)."

/-- The degraded-mode branch of the `/api/chat` handler (`rag_fallback`):
keyword search over `app.state.sources`, `context_used=False`, sources as
`{"text": s}` objects. -/
def fallbackChatResponse (app_sources : List String) (request : ChatRequest)
    (query : String) : ChatResponse :=
  let snippets := find_relevant_snippets query app_sources (effectiveTopK request.top_k)
  if snippets.isEmpty then
    { response := no_sources_message
      message := no_sources_message
      sources := []
      context_used := false
      query := query
      num_sources := 0 }
  else
    let response_text := "Informations trouvées :\n\n" ++ joinSep "\n" snippets
    { response := response_text
      message := response_text
      sources := snippets.map SourceEntry.snippet
      context_used := false
      query := query
      num_sources := snippets.length }

/-- The request-validation guard of the `/api/chat` handler:
`not request.query or len(request.query.strip()) == 0`. -/
def emptyQueryGuard (request : ChatRequest) : Bool :=
  request.query == "" || (pyStripStr request.query).length == 0

/-- The `/api/chat` handler of `main.py`.  `rag` is the global `rag_system`:
`none` when uninitialised, otherwise its `chat` method, which may raise
(`Except.error`); both of those cases take the keyword-fallback branch.  A
blank query is rejected with HTTP 400 before anything else runs. -/
def chatEndpoint (rag : Option (String → Except String RagResult))
    (app_sources : List String) (request : ChatRequest) :
    Except HttpError ChatResponse :=
  if emptyQueryGuard request then
    Except.error { status_code := 400, detail := "La requête ne peut pas être vide" }
  else
    let query := pyStripStr request.query
    match rag with
    | some ragChat =>
      match ragChat query with
      | Except.ok result =>
        Except.ok
          { response := result.response
            message := result.response
            sources := result.sources
            context_used := result.context_used
            query := query
            num_sources := result.num_sources }
      | Except.error _ => Except.ok (fallbackChatResponse app_sources request query)
    | none => Except.ok (fallbackChatResponse app_sources request query)

/-! ## Helper lemmas -/

/-- Reading the parallel lists produced from a hit list gives back the hit
list. -/
theorem rowsOf_maps (hits : List RawHit) :
    rowsOf (hits.map RawHit.id) (hits.map RawHit.text) (hits.map RawHit.metadata)
      (some (hits.map RawHit.distance)) = hits := by
  induction hits with
  | nil => rfl
  | cons h t ih => simp [rowsOf, ih]

/-- A filterMap whose body is a guarded `some` is a filter followed by a
map. -/
theorem filterMap_ite {α β : Type _} (p : α → Prop) [DecidablePred p] (f : α → β) :
    ∀ l : List α,
      (l.filterMap fun a => if p a then some (f a) else none)
        = (l.filter fun a => decide (p a)).map f
  | [] => rfl
  | a :: t => by
    by_cases h : p a <;>
      simp [List.filterMap_cons, List.filter_cons, h, filterMap_ite p f t]

/-- Characterisation of the retrieval pipeline: threshold-filter the raw
nearest-neighbour list, then format each surviving hit. -/
theorem retrieve_documents_eq (entries : List RawHit) (top_k : Option Nat) :
    retrieve_documents entries top_k
      = ((rawNN entries (top_k.getD RAG_CONFIG.top_k)).filter passesThreshold).map formatHit := by
  show (rowsOf _ _ _ _).filterMap _ = _
  simp only [collection_query, rawNN]
  rw [rowsOf_maps ((entries.insertionSort distLE).take (top_k.getD RAG_CONFIG.top_k))]
  exact filterMap_ite (fun h => RAG_CONFIG.similarity_threshold ≤ 1 - h.distance) formatHit _

/-! ## Claims -/

/-- Claim C1: for every query and every top_k, every match returned by
retrieve_documents has similarity at least the configured
similarity_threshold; no match below the threshold is ever included. -/
theorem c1_threshold_filter (entries : List RawHit) (top_k : Option Nat)
    (doc : RetrievedDoc) (hmem : doc ∈ retrieve_documents entries top_k) :
    RAG_CONFIG.similarity_threshold ≤ doc.similarity := by
  rw [retrieve_documents_eq] at hmem
  obtain ⟨h, hh, rfl⟩ := List.mem_map.mp hmem
  have hpass := List.of_mem_filter hh
  simpa [passesThreshold, formatHit] using hpass

/-- Witness for C1 at a concrete one-entry index with distance 1/2. -/
theorem c1_threshold_filter_witness :
    RAG_CONFIG.similarity_threshold ≤
      (RetrievedDoc.mk "doc_1" "Ouagadougou est la capitale du Burkina Faso"
        ⟨some "Ouagadougou", some "https://example.org", some "tourisme"⟩
        (1 - mkRat 1 2)).similarity :=
  c1_threshold_filter
    [RawHit.mk "doc_1" "Ouagadougou est la capitale du Burkina Faso"
      ⟨some "Ouagadougou", some "https://example.org", some "tourisme"⟩ (mkRat 1 2)]
    (some 5)
    (RetrievedDoc.mk "doc_1" "Ouagadougou est la capitale du Burkina Faso"
      ⟨some "Ouagadougou", some "https://example.org", some "tourisme"⟩
      (1 - mkRat 1 2))
    (by with_unfolding_all decide)

/-- Claim C4: for every query and every k, the retrieval result has length
at most k; k = 0 gives the empty list, and an empty index gives the empty
list rather than an error. -/
theorem c4_length_bound :
    (∀ entries k, (retrieve_documents entries (some k)).length ≤ k) ∧
    (∀ entries, retrieve_documents entries (some 0) = []) ∧
    (∀ k, retrieve_documents ([] : List RawHit) (some k) = []) := by
  refine ⟨fun entries k => ?_, fun entries => ?_, fun k => ?_⟩
  · rw [retrieve_documents_eq]
    calc (((rawNN entries ((some k).getD RAG_CONFIG.top_k)).filter passesThreshold).map
          formatHit).length
        = ((rawNN entries k).filter passesThreshold).length := by simp
      _ ≤ (rawNN entries k).length := List.length_filter_le _ _
      _ ≤ k := by simp [rawNN]
  · rw [retrieve_documents_eq]
    simp [rawNN]
  · rw [retrieve_documents_eq]
    simp [rawNN]

/-- Claim C5: the retrieval result is sorted by non-increasing similarity
and is an order-preserving sublist of the (formatted) raw nearest-neighbour
list: the threshold filter removes elements, never reorders them. -/
theorem c5_order_preserved (entries : List RawHit) (top_k : Option Nat) :
    (retrieve_documents entries top_k).Pairwise
        (fun a b => b.similarity ≤ a.similarity) ∧
    List.Sublist (retrieve_documents entries top_k)
      ((rawNN entries (top_k.getD RAG_CONFIG.top_k)).map formatHit) := by
  rw [retrieve_documents_eq]
  constructor
  · have h1 : (entries.insertionSort distLE).Pairwise distLE :=
      List.sorted_insertionSort distLE entries
    have h2 : (rawNN entries (top_k.getD RAG_CONFIG.top_k)).Pairwise distLE :=
      List.Pairwise.sublist (List.take_sublist _ _) h1
    have h3 : ((rawNN entries (top_k.getD RAG_CONFIG.top_k)).filter
        passesThreshold).Pairwise distLE := h2.filter _
    rw [List.pairwise_map]
    exact h3.imp fun hab => by
      simpa [formatHit] using sub_le_sub_left hab 1
  · exact (List.filter_sublist _).map formatHit

/-- The value `_generate_fallback_response` returns is always drawn from
its fixed pool (one of the four trigger responses, or the "no information"
message). -/
theorem fallback_mem_pool (query : String) :
    generate_fallback_response query ∈ fallback_response_pool := by
  have key : ∀ l : List (String × String),
      (match l.find? (fun kv => strContains (pyStripStr (pyLowerStr query)) kv.1) with
       | some kv => kv.2
       | none => no_info_response) ∈ l.map Prod.snd ++ [no_info_response] := by
    intro l
    induction l with
    | nil => simp
    | cons kv t ih =>
      simp only [List.find?]
      cases hb : strContains (pyStripStr (pyLowerStr query)) kv.1 with
      | true => simp
      | false =>
        simp only [List.map_cons, List.cons_append, List.mem_cons]
        exact Or.inr ih
  exact key general_responses

/-- Claim C2: if the LLM tier raises at runtime, generate_response returns
exactly the result the template tier alone would produce (the exception is
consumed at the tier boundary, not propagated), and context_used is true
iff the context is non-empty. -/
theorem c2_tier_fallthrough (query : String) (docs : List RetrievedDoc)
    (llm : LLMBackend) (e : String)
    (hf : llm (buildPrompt query (build_context docs)) = Except.error e) :
    generate_response (some llm) query docs = generate_response none query docs ∧
    ((generate_response (some llm) query docs).context_used = true ↔ docs ≠ []) := by
  have hresp : generate_response (some llm) query docs = generate_response none query docs := by
    simp only [generate_response, generate_with_llm, hf]
  refine ⟨hresp, ?_⟩
  simp [generate_response, List.length_pos]

/-- Witness for C2: a backend that always raises, one retrieved document. -/
theorem c2_tier_fallthrough_witness :
    (generate_response (some fun _ => Except.error "timeout")
        "Quelle est la capitale du Burkina Faso?"
        [RetrievedDoc.mk "doc_1" "Ouagadougou est la capitale du Burkina Faso."
          ⟨some "Ouagadougou", some "", some "tourisme"⟩ (mkRat 7 10)]
      = generate_response none "Quelle est la capitale du Burkina Faso?"
        [RetrievedDoc.mk "doc_1" "Ouagadougou est la capitale du Burkina Faso."
          ⟨some "Ouagadougou", some "", some "tourisme"⟩ (mkRat 7 10)]) ∧
    ((generate_response (some fun _ => Except.error "timeout")
        "Quelle est la capitale du Burkina Faso?"
        [RetrievedDoc.mk "doc_1" "Ouagadougou est la capitale du Burkina Faso."
          ⟨some "Ouagadougou", some "", some "tourisme"⟩ (mkRat 7 10)]).context_used = true ↔
      [RetrievedDoc.mk "doc_1" "Ouagadougou est la capitale du Burkina Faso."
          ⟨some "Ouagadougou", some "", some "tourisme"⟩ (mkRat 7 10)] ≠ []) :=
  c2_tier_fallthrough "Quelle est la capitale du Burkina Faso?"
    [RetrievedDoc.mk "doc_1" "Ouagadougou est la capitale du Burkina Faso."
      ⟨some "Ouagadougou", some "", some "tourisme"⟩ (mkRat 7 10)]
    (fun _ => Except.error "timeout") "timeout" rfl

/-- Counterexample to claim C3 as stated: with an LLM backend loaded and
succeeding, an empty context list still reaches the LLM tier
(`generate_response` only checks `self.llm_pipeline`, not the context), so
the response is an LLM artifact, not one of the fixed fallback strings. -/
theorem c3_counterexample :
    (generate_response (some fun _ => Except.ok "Une réponse libre du modèle.")
        "Parlez-moi du Burkina" []).response ∉ fallback_response_pool := by
  with_unfolding_all decide

/-- Claim C3 (amended): when no LLM backend is loaded, or the LLM tier
fails at runtime, generate_response on an empty context list has
context_used = false and returns one of the fixed trigger responses or the
fixed "no information" message. -/
theorem c3_fallback_purity (query : String) (llm : Option LLMBackend)
    (h : llm = none ∨ ∃ p e, llm = some p ∧
      p (buildPrompt query (build_context [])) = Except.error e) :
    (generate_response llm query []).context_used = false ∧
    (generate_response llm query []).response ∈ fallback_response_pool := by
  have hctx : build_context ([] : List RetrievedDoc) = "" := rfl
  constructor
  · rcases h with rfl | ⟨p, e, rfl, he⟩ <;> simp [generate_response]
  · rcases h with rfl | ⟨p, e, rfl, he⟩
    · show generate_with_template query (build_context []) ∈ _
      rw [hctx]
      show generate_fallback_response query ∈ _
      exact fallback_mem_pool query
    · have he' : p (buildPrompt query "") = Except.error e := by rwa [hctx] at he
      show generate_with_llm p query (build_context []) ∈ _
      rw [hctx]
      show (match p (buildPrompt query "") with
            | Except.ok generated_text =>
              pyStripStr (removeAllStr (buildPrompt query "") generated_text)
            | Except.error _ => generate_with_template query "") ∈ _
      rw [he']
      show generate_fallback_response query ∈ _
      exact fallback_mem_pool query

/-- Witness for the amended C3: no backend, query "Bonjour". -/
theorem c3_fallback_purity_witness :
    (generate_response none "Bonjour" []).context_used = false ∧
    (generate_response none "Bonjour" []).response ∈ fallback_response_pool :=
  c3_fallback_purity "Bonjour" none (Or.inl rfl)

/-- Claim C6: a chat request whose query is empty or whitespace-only is
rejected with HTTP 400.  The rejection is identical for every state of the
rag system and every source list, which expresses that no retrieval or
generation work happens and the index is untouched. -/
theorem c6_empty_query_rejected (request : ChatRequest)
    (h : pyStripStr request.query = "") :
    ∀ (rag : Option (String → Except String RagResult)) (app_sources : List String),
      chatEndpoint rag app_sources request
        = Except.error { status_code := 400, detail := "La requête ne peut pas être vide" } := by
  intro rag app_sources
  have hguard : emptyQueryGuard request = true := by
    unfold emptyQueryGuard
    rw [h]
    simp
  unfold chatEndpoint
  rw [hguard]
  simp

/-- Witness for C6: a whitespace-only query. -/
theorem c6_empty_query_rejected_witness :
    chatEndpoint none ["Cascade de Banfora"] { query := "   ", top_k := some 5 }
      = Except.error { status_code := 400, detail := "La requête ne peut pas être vide" } :=
  c6_empty_query_rejected { query := "   ", top_k := some 5 } (by decide)
    none ["Cascade de Banfora"]

/-- The scan loop of the keyword fallback, characterised: starting from an
accumulator strictly below the bound, it returns the accumulator followed
by the matching lines, truncated to the remaining budget. -/
theorem snippetLoop_eq (words : List (List Char)) (m : Nat) :
    ∀ (lines : List String) (acc : List String), acc.length < m →
      snippetLoop words m lines acc
        = acc ++ (lines.filter (lineMatches words)).take (m - acc.length)
  | [], acc, _ => by simp [snippetLoop]
  | line :: rest, acc, hlt => by
    simp only [snippetLoop]
    cases hb : lineMatches words line with
    | false =>
      have ih := snippetLoop_eq words m rest acc hlt
      simp [List.filter_cons, hb, ih]
    | true =>
      simp only [List.filter_cons, hb, if_pos]
      by_cases hm : m ≤ (acc ++ [line]).length
      · rw [if_pos hm]
        rw [List.length_append, List.length_singleton] at hm
        have h1 : m - acc.length = 1 := by omega
        rw [h1]
        simp
      · rw [if_neg hm]
        rw [List.length_append, List.length_singleton] at hm
        have hlt' : (acc ++ [line]).length < m := by
          rw [List.length_append, List.length_singleton]
          omega
        rw [snippetLoop_eq words m rest (acc ++ [line]) hlt']
        rw [List.length_append, List.length_singleton]
        have h1 : m - acc.length = (m - (acc.length + 1)) + 1 := by omega
        rw [h1, List.take_succ_cons]
        simp

/-- `find_relevant_snippets` for a positive bound: the matching lines in
stored order, truncated to `max_results`. -/
theorem find_relevant_snippets_eq (query : String) (sources : List String)
    (m : Nat) (hm : 1 ≤ m) :
    find_relevant_snippets query sources m
      = (sources.filter (lineMatches (tokenize3 query.data))).take m := by
  have h := snippetLoop_eq (tokenize3 query.data) m sources [] (by simpa using hm)
  simpa [find_relevant_snippets] using h

/-- Counterexample to claim C7 as stated: for max_results = 0 the loop
appends a matching line before checking the bound, so the result is not
truncated to at most 0 lines. -/
theorem c7_counterexample :
    ¬ ((find_relevant_snippets "banfora" ["Cascade de Banfora"] 0).length ≤ 0) := by
  decide

/-- Claim C7 (amended): for every max_results ≥ 1 the keyword fallback
returns exactly the lines that contain some lowercase query token of
length ≥ 3 as a case-insensitive substring, in stored first-encountered
order, truncated to at most max_results; the FESPACO/Banfora scenario
returns exactly the second line. -/
theorem c7_keyword_fallback :
    (∀ (query : String) (sources : List String) (m : Nat), 1 ≤ m →
      find_relevant_snippets query sources m
        = (sources.filter (lineMatches (tokenize3 query.data))).take m) ∧
    find_relevant_snippets "banfora cascade"
        ["Festival FESPACO à Ouagadougou", "Cascade de Banfora"] 5
      = ["Cascade de Banfora"] := by
  refine ⟨fun q s m hm => find_relevant_snippets_eq q s m hm, ?_⟩
  decide

/-- Witness for the amended C7, applying the universal part at the
scenario's inputs with bound 3. -/
theorem c7_keyword_fallback_witness :
    find_relevant_snippets "banfora cascade"
        ["Festival FESPACO à Ouagadougou", "Cascade de Banfora"] 3
      = (["Festival FESPACO à Ouagadougou", "Cascade de Banfora"].filter
          (lineMatches (tokenize3 "banfora cascade".data))).take 3 :=
  c7_keyword_fallback.1 "banfora cascade"
    ["Festival FESPACO à Ouagadougou", "Cascade de Banfora"] 3 (by decide)

/-- Claim C8: a missing corpus file and a malformed corpus file are both
caught inside load_corpus: zero documents are added, the call returns
normally, and the administrative /api/init operation still completes with
a success response instead of aborting. -/
theorem c8_corpus_load_errors :
    (∀ collection : List Document,
        load_corpus CorpusFile.missing collection = collection ∧
        load_corpus CorpusFile.malformed collection = collection) ∧
    (∀ dl : DataLoader,
        (∃ r, initCorpusEndpoint CorpusFile.missing dl = Except.ok r) ∧
        (∃ r, initCorpusEndpoint CorpusFile.malformed dl = Except.ok r)) :=
  ⟨fun _ => ⟨rfl, rfl⟩, fun _ => ⟨⟨_, rfl⟩, ⟨_, rfl⟩⟩⟩

/-- The degraded-mode response constructor always reports
`context_used = false`, `num_sources` equal to the number of matched
lines, and sources that are bare `{text}` objects. -/
theorem fallbackChatResponse_spec (app_sources : List String)
    (request : ChatRequest) (query : String) :
    (fallbackChatResponse app_sources request query).context_used = false ∧
    (fallbackChatResponse app_sources request query).num_sources
      = (find_relevant_snippets query app_sources (effectiveTopK request.top_k)).length ∧
    (fallbackChatResponse app_sources request query).sources
      = (find_relevant_snippets query app_sources
          (effectiveTopK request.top_k)).map SourceEntry.snippet := by
  by_cases hs : (find_relevant_snippets query app_sources (effectiveTopK request.top_k)).isEmpty
  · have hnil : find_relevant_snippets query app_sources (effectiveTopK request.top_k) = [] :=
      List.isEmpty_iff.mp hs
    simp [fallbackChatResponse, hnil]
  · simp [fallbackChatResponse, hs]

/-- Claim C9: whenever the chat endpoint runs in degraded keyword-fallback
mode (rag system absent, or its chat call raised), the response has
context_used = false even when snippets were found, num_sources equal to
the number of matched lines, and sources entries carrying only the matched
line text. -/
theorem c9_degraded_mode (request : ChatRequest) (app_sources : List String)
    (rag : Option (String → Except String RagResult))
    (hq : emptyQueryGuard request = false)
    (hrag : rag = none ∨ ∃ f e, rag = some f ∧
      f (pyStripStr request.query) = Except.error e) :
    ∃ resp, chatEndpoint rag app_sources request = Except.ok resp ∧
      resp.context_used = false ∧
      resp.num_sources = (find_relevant_snippets (pyStripStr request.query) app_sources
        (effectiveTopK request.top_k)).length ∧
      resp.sources = (find_relevant_snippets (pyStripStr request.query) app_sources
        (effectiveTopK request.top_k)).map SourceEntry.snippet := by
  refine ⟨fallbackChatResponse app_sources request (pyStripStr request.query), ?_,
    (fallbackChatResponse_spec app_sources request (pyStripStr request.query)).1,
    (fallbackChatResponse_spec app_sources request (pyStripStr request.query)).2.1,
    (fallbackChatResponse_spec app_sources request (pyStripStr request.query)).2.2⟩
  rcases hrag with rfl | ⟨f, e, rfl, he⟩
  · simp [chatEndpoint, hq]
  · simp [chatEndpoint, hq, he]

/-- Witness for C9: no rag system, the FESPACO/Banfora source lines. -/
theorem c9_degraded_mode_witness :
    ∃ resp, chatEndpoint none ["Festival FESPACO à Ouagadougou", "Cascade de Banfora"]
        { query := "banfora cascade", top_k := some 5 } = Except.ok resp ∧
      resp.context_used = false ∧
      resp.num_sources = (find_relevant_snippets (pyStripStr "banfora cascade")
        ["Festival FESPACO à Ouagadougou", "Cascade de Banfora"] (effectiveTopK (some 5))).length ∧
      resp.sources = (find_relevant_snippets (pyStripStr "banfora cascade")
        ["Festival FESPACO à Ouagadougou", "Cascade de Banfora"]
          (effectiveTopK (some 5))).map SourceEntry.snippet :=
  c9_degraded_mode { query := "banfora cascade", top_k := some 5 }
    ["Festival FESPACO à Ouagadougou", "Cascade de Banfora"] none (by decide) (Or.inl rfl)

/-- Claim C10: get_statistics is total; the average length is 0 for an
empty corpus (the division is guarded) and otherwise the integer floor of
total characters over total documents. -/
theorem c10_statistics_total :
    (∀ dl : DataLoader, dl.documents = [] →
      (get_statistics dl).average_doc_length = 0) ∧
    (∀ dl : DataLoader, dl.documents ≠ [] →
      (get_statistics dl).average_doc_length
        = ⌊((get_statistics dl).total_characters : ℚ) /
            ((get_statistics dl).total_documents : ℚ)⌋₊) := by
  constructor
  · intro dl h
    simp [get_statistics, h]
  · intro dl h
    have hpos : 0 < dl.documents.length := List.length_pos.mpr h
    have h2 : (get_statistics dl).total_documents = dl.documents.length := rfl
    have h3 : (get_statistics dl).total_characters
        = (dl.documents.map fun d => d.text.length).sum := rfl
    rw [h2, h3, Nat.floor_div_nat, Nat.floor_natCast]
    show (if 0 < dl.documents.length
          then (dl.documents.map fun d => d.text.length).sum / dl.documents.length
          else 0)
        = (dl.documents.map fun d => d.text.length).sum / dl.documents.length
    rw [if_pos hpos]

/-- Witness for C10: the empty loader and a two-document loader. -/
theorem c10_statistics_total_witness :
    (get_statistics { documents := [], sources := [] }).average_doc_length = 0 ∧
    (get_statistics { documents := [Document.mk "doc_1" "abcde" none,
        Document.mk "doc_2" "abc" none], sources := [] }).average_doc_length
      = ⌊((get_statistics { documents := [Document.mk "doc_1" "abcde" none,
            Document.mk "doc_2" "abc" none], sources := [] }).total_characters : ℚ) /
          ((get_statistics { documents := [Document.mk "doc_1" "abcde" none,
            Document.mk "doc_2" "abc" none], sources := [] }).total_documents : ℚ)⌋₊ :=
  ⟨c10_statistics_total.1 { documents := [], sources := [] } rfl,
   c10_statistics_total.2 { documents := [Document.mk "doc_1" "abcde" none,
     Document.mk "doc_2" "abc" none], sources := [] } (by decide)⟩

end BT
